import Mathlib

/-!
Verification of the agent health-supervision engine of `auto_codex`
(`auto_codex/health.py`): the data model (`AgentStatus`, `HealthStatus`,
`AgentMetrics`, `AgentHealthInfo`), the registry operations of
`AgentHealthMonitor` (`register_agent`, `update_agent_status`, `heartbeat`,
`terminate_agent`, `get_summary_stats`), the state evaluator
(`_evaluate_agent_health`) and the poller tick (`_check_agent_health`).

Modelling conventions:
- timestamps and durations are rationals (seconds); `datetime.now()` becomes
  an explicit `now : Int` argument (integer seconds: the engine only ever
  compares, subtracts and sums timestamps, so the embedding stays faithful
  while keeping every definition kernel-computable; the real-valued division
  in `get_summary_stats` is performed in `Rat`);
- the agent dictionary is an association list with Python-dict semantics
  (lookup of the first matching key, assignment replaces in place or appends);
- OS signalling (`os.kill`) is an oracle `Int → TermSignal → SignalOutcome`
  (and `Int → SignalOutcome` for the existence probe, signal 0), covering the
  three outcomes the code distinguishes: success, `ProcessLookupError`,
  `PermissionError`;
- callback lists store opaque functions, so they are modelled by their count;
  a dispatch to the callbacks becomes a list of emitted events (one per
  registered callback), and `logger.warning` calls become a list of warning
  strings.  All modelled functions are total, mirroring the fact that the
  Python mutators never raise;
- Python truthiness tests on `Optional` fields (`if agent_info.process_id:`,
  `if error_message:`) are modelled exactly, including the falsiness of `0`
  and of the empty string.
-/

/-- `AgentStatus` enum from `health.py`. -/
inductive AgentStatus
  | initializing
  | running
  | waiting_approval
  | completing
  | completed
  | failed
  | cancelled
  | timeout
  | unknown
deriving DecidableEq, Repr

/-- The `.value` string of an `AgentStatus` member. -/
def AgentStatus.value : AgentStatus → String
  | .initializing => "initializing"
  | .running => "running"
  | .waiting_approval => "waiting_approval"
  | .completing => "completing"
  | .completed => "completed"
  | .failed => "failed"
  | .cancelled => "cancelled"
  | .timeout => "timeout"
  | .unknown => "unknown"

/-- `HealthStatus` enum from `health.py`. -/
inductive HealthStatus
  | healthy
  | degraded
  | unhealthy
  | unknown
deriving DecidableEq, Repr

/-- The `.value` string of a `HealthStatus` member. -/
def HealthStatus.value : HealthStatus → String
  | .healthy => "healthy"
  | .degraded => "degraded"
  | .unhealthy => "unhealthy"
  | .unknown => "unknown"

/-- `AgentMetrics` dataclass from `health.py`.  `error_count` is an `Int`
(a Python `int` defaulting to `0`); the other fields default to `None`. -/
structure AgentMetrics where
  cpu_usage : Option Rat := none
  memory_usage : Option Rat := none
  disk_usage : Option Rat := none
  network_counters : Option (List (String × Int)) := none
  runtime_seconds : Option Rat := none
  tokens_used : Option Int := none
  api_calls : Option Int := none
  error_count : Int := 0
  last_activity : Option Int := none
deriving DecidableEq, Repr

/-- `AgentHealthInfo` dataclass from `health.py`. -/
structure AgentHealthInfo where
  agent_id : String
  status : AgentStatus
  health : HealthStatus
  start_time : Int
  last_heartbeat : Option Int := none
  last_update : Option Int := none
  process_id : Option Int := none
  log_file : Option String := none
  error_message : Option String := none
  metrics : AgentMetrics := {}
  metadata : List (String × String) := []
deriving DecidableEq, Repr

/-- Derived property `AgentHealthInfo.runtime_seconds`:
`(datetime.now() - self.start_time).total_seconds()`. -/
def AgentHealthInfo.runtime_seconds (info : AgentHealthInfo) (now : Int) : Int :=
  now - info.start_time

/-- Derived property `AgentHealthInfo.is_running`:
`self.status in {INITIALIZING, RUNNING, WAITING_APPROVAL}`. -/
def AgentHealthInfo.is_running (info : AgentHealthInfo) : Bool :=
  decide (info.status = .initializing ∨ info.status = .running ∨
    info.status = .waiting_approval)

/-- Derived property `AgentHealthInfo.is_responsive`: `False` when
`last_heartbeat` is `None`, else `datetime.now() - last_heartbeat <
timedelta(seconds=30)`. -/
def AgentHealthInfo.is_responsive (info : AgentHealthInfo) (now : Int) : Bool :=
  match info.last_heartbeat with
  | none => false
  | some hb => decide (now - hb < 30)

/-- Python truthiness of an `Optional[int]` pid: `None` and `0` are falsy. -/
def pidTruthy : Option Int → Bool
  | none => false
  | some p => decide (p ≠ 0)

/-- Python truthiness of an `Optional[str]`: `None` and `""` are falsy. -/
def strTruthy : Option String → Bool
  | none => false
  | some s => decide (s ≠ "")

/-- Outcome of an `os.kill` call as the code distinguishes them: success,
`ProcessLookupError`, or `PermissionError`. -/
inductive SignalOutcome
  | ok
  | noSuchProcess
  | permissionDenied
deriving DecidableEq, Repr

/-- The two termination signals sent by `terminate_agent`. -/
inductive TermSignal
  | sigterm
  | sigkill
deriving DecidableEq, Repr

/-- `AgentHealthMonitor` state: thresholds, the agent dictionary, and the
sizes of the three callback lists (the callbacks themselves are opaque
functions, so only their number is observable in the model). -/
structure AgentHealthMonitor where
  heartbeat_interval : Int := 10
  health_check_interval : Int := 5
  timeout_threshold : Int := 300
  max_error_count : Int := 5
  agents : List (String × AgentHealthInfo) := []
  status_callbacks : Nat := 0
  health_callbacks : Nat := 0
  error_callbacks : Nat := 0
deriving DecidableEq, Repr

/-- Dictionary lookup (`self._agents.get(agent_id)` / `agent_id in self._agents`). -/
def lookupAgent : List (String × AgentHealthInfo) → String → Option AgentHealthInfo
  | [], _ => none
  | (k, v) :: rest, id => if k = id then some v else lookupAgent rest id

/-- Dictionary assignment `self._agents[agent_id] = info`: replace the value
in place when the key is present, else append (Python insertion order). -/
def dictSet : List (String × AgentHealthInfo) → String → AgentHealthInfo →
    List (String × AgentHealthInfo)
  | [], id, info => [(id, info)]
  | (k, v) :: rest, id, info =>
      if k = id then (k, info) :: rest else (k, v) :: dictSet rest id info

/-- Result of `register_agent`: the new monitor state, the returned
`AgentHealthInfo`, and the warnings logged. -/
structure RegisterResult where
  monitor : AgentHealthMonitor
  info : AgentHealthInfo
  warnings : List String
deriving DecidableEq, Repr

/-- `register_agent(agent_id, process_id, log_file, metadata)`: creates a fresh
record with status `INITIALIZING`, health `UNKNOWN`, `start_time = now`, and
stores it under `agent_id`, replacing any prior record (with a logged
warning). -/
def register_agent (m : AgentHealthMonitor) (agent_id : String)
    (process_id : Option Int) (log_file : Option String)
    (metadata : Option (List (String × String))) (now : Int) : RegisterResult :=
  let warnings :=
    if (lookupAgent m.agents agent_id).isSome then
      ["Agent " ++ agent_id ++ " already registered, updating"]
    else []
  let agent_info : AgentHealthInfo :=
    { agent_id := agent_id
      status := .initializing
      health := .unknown
      start_time := now
      process_id := process_id
      log_file := log_file
      metadata := metadata.getD [] }
  { monitor := { m with agents := dictSet m.agents agent_id agent_info }
    info := agent_info
    warnings := warnings }

/-- The record mutation performed by `update_agent_status` on the found
record: set `status` and `last_update`; when `error_message` is truthy, also
set `error_message` and increment `metrics.error_count`. -/
def applyStatusUpdate (info : AgentHealthInfo) (status : AgentStatus)
    (error_message : Option String) (now : Int) : AgentHealthInfo :=
  let info1 := { info with status := status, last_update := some now }
  if strTruthy error_message then
    { info1 with
      error_message := error_message
      metrics := { info1.metrics with
        error_count := info1.metrics.error_count + 1 } }
  else info1

/-- Result of `update_agent_status`: new monitor state, the status-change
events dispatched to the status callbacks (one per callback), and the
warnings logged. -/
structure StatusUpdateResult where
  monitor : AgentHealthMonitor
  statusEvents : List (String × AgentStatus)
  warnings : List String
deriving DecidableEq, Repr

/-- `update_agent_status(agent_id, status, error_message)`: warn and no-op on
an unknown id; otherwise mutate the record and, when the status actually
changed, invoke every status callback with `(agent_id, status)`. -/
def update_agent_status (m : AgentHealthMonitor) (agent_id : String)
    (status : AgentStatus) (error_message : Option String) (now : Int) :
    StatusUpdateResult :=
  match lookupAgent m.agents agent_id with
  | none =>
      { monitor := m
        statusEvents := []
        warnings := ["Agent " ++ agent_id ++ " not registered"] }
  | some info =>
      let old_status := info.status
      let info2 := applyStatusUpdate info status error_message now
      { monitor := { m with agents := dictSet m.agents agent_id info2 }
        statusEvents :=
          if old_status ≠ status then
            List.replicate m.status_callbacks (agent_id, status)
          else []
        warnings := [] }

/-- Result of `heartbeat`: new monitor state and the warnings logged. -/
structure HeartbeatResult where
  monitor : AgentHealthMonitor
  warnings : List String
deriving DecidableEq, Repr

/-- `heartbeat(agent_id, metrics)`: warn and no-op on an unknown id; otherwise
stamp `last_heartbeat` and `last_update`, and when metrics are supplied,
replace the whole bundle and stamp its `last_activity`. -/
def heartbeat (m : AgentHealthMonitor) (agent_id : String)
    (metrics : Option AgentMetrics) (now : Int) : HeartbeatResult :=
  match lookupAgent m.agents agent_id with
  | none =>
      { monitor := m
        warnings := ["Heartbeat from unregistered agent " ++ agent_id] }
  | some info =>
      let info1 := { info with last_heartbeat := some now, last_update := some now }
      let info2 :=
        match metrics with
        | some mtr => { info1 with metrics := { mtr with last_activity := some now } }
        | none => info1
      { monitor := { m with agents := dictSet m.agents agent_id info2 }
        warnings := [] }

/-- Result of `terminate_agent`: new monitor state, the boolean return value,
and the status-change events dispatched. -/
structure TerminateResult where
  monitor : AgentHealthMonitor
  returned : Bool
  statusEvents : List (String × AgentStatus)
deriving DecidableEq, Repr

/-- `terminate_agent(agent_id, force)`, with `kill` standing for `os.kill`.
Unknown id returns `False`.  When the record's pid is truthy, SIGKILL (if
`force`) or SIGTERM is sent: success updates status to `CANCELLED` and
returns `True`; `ProcessLookupError` updates status to `FAILED` with message
"Process not found" and falls through to the final `return True`;
`PermissionError` returns `False` with no mutation.  When the pid is falsy
the function skips the whole signalling block and hits the final
`return True`. -/
def terminate_agent (m : AgentHealthMonitor) (kill : Int → TermSignal → SignalOutcome)
    (agent_id : String) (force : Bool) (now : Int) : TerminateResult :=
  match lookupAgent m.agents agent_id with
  | none => { monitor := m, returned := false, statusEvents := [] }
  | some agent_info =>
      if pidTruthy agent_info.process_id then
        match kill (agent_info.process_id.getD 0)
            (if force then .sigkill else .sigterm) with
        | .ok =>
            let r := update_agent_status m agent_id .cancelled none now
            { monitor := r.monitor, returned := true, statusEvents := r.statusEvents }
        | .noSuchProcess =>
            let r := update_agent_status m agent_id .failed (some "Process not found") now
            { monitor := r.monitor, returned := true, statusEvents := r.statusEvents }
        | .permissionDenied =>
            { monitor := m, returned := false, statusEvents := [] }
      else
        { monitor := m, returned := true, statusEvents := [] }

/-- `counts.get(key, 0) + 1` style increment into a string-keyed count dict. -/
def incKey : List (String × Nat) → String → List (String × Nat)
  | [], k => [(k, 1)]
  | (k0, n) :: rest, k =>
      if k0 = k then (k0, n + 1) :: rest else (k0, n) :: incKey rest k

/-- `counts.get(key, 0)` on a string-keyed count dict. -/
def getCount : List (String × Nat) → String → Nat
  | [], _ => 0
  | (k0, n) :: rest, k => if k0 = k then n else getCount rest k

/-- The dictionary returned by `get_summary_stats`.  The Python function
returns `{"total": 0}` when the registry is empty, so every key other than
`total` is optional. -/
structure SummaryStats where
  total : Nat
  status_counts : Option (List (String × Nat))
  health_counts : Option (List (String × Nat))
  average_runtime : Option Rat
  total_errors : Option Int
  healthy_percentage : Option Rat
deriving DecidableEq, Repr

/-- `get_summary_stats()`: the early return `{"total": 0}` on an empty
registry (all other keys absent), else the full aggregate dictionary. -/
def get_summary_stats (m : AgentHealthMonitor) (now : Int) : SummaryStats :=
  let total := m.agents.length
  if total = 0 then
    { total := 0
      status_counts := none
      health_counts := none
      average_runtime := none
      total_errors := none
      healthy_percentage := none }
  else
    let status_counts := m.agents.foldl (fun acc e => incKey acc e.2.status.value) []
    let health_counts := m.agents.foldl (fun acc e => incKey acc e.2.health.value) []
    let total_runtime : Int := m.agents.foldl (fun acc e => acc + e.2.runtime_seconds now) 0
    let total_errors : Int := m.agents.foldl (fun acc e => acc + e.2.metrics.error_count) 0
    { total := total
      status_counts := some status_counts
      health_counts := some health_counts
      average_runtime := some (if 0 < total then (total_runtime : Rat) / (total : Rat) else 0)
      total_errors := some total_errors
      healthy_percentage :=
        some (if 0 < total then (getCount health_counts "healthy" : Rat) / (total : Rat) * 100
          else 0) }

/-- `_evaluate_agent_health(agent_info, current_time)`: the pure state
evaluator, with `probe pid` standing for the `os.kill(pid, 0)` existence
check. -/
def evaluate_agent_health (max_error_count : Int) (probe : Int → SignalOutcome)
    (info : AgentHealthInfo) (now : Int) : HealthStatus :=
  if info.status = .failed ∨ info.status = .cancelled ∨ info.status = .timeout then
    .unhealthy
  else if info.status = .completed then
    .healthy
  else if info.metrics.error_count ≥ max_error_count then
    .unhealthy
  else if info.is_running then
    if ! info.is_responsive now then
      .degraded
    else if pidTruthy info.process_id then
      match probe (info.process_id.getD 0) with
      | .noSuchProcess => .unhealthy
      | .permissionDenied => .healthy
      | .ok => .healthy
    else
      .healthy
  else
    .healthy

/-- Per-entry result inside `_check_agent_health`: the (possibly mutated)
record of the agent and the events dispatched for it. -/
structure EntryCheck where
  info : AgentHealthInfo
  healthEvents : List (String × HealthStatus)
  statusEvents : List (String × AgentStatus)
deriving DecidableEq, Repr

/-- One iteration of the loop in `_check_agent_health` for the entry
`(agent_id, info)`: re-evaluate health, store it and notify the health
callbacks when it changed, then, when the agent is running-like and its
runtime exceeds `timeout_threshold`, perform
`update_agent_status(agent_id, TIMEOUT, "Agent timed out")` (which on this
registered id mutates the record and notifies the status callbacks). -/
def check_agent_entry (m : AgentHealthMonitor) (probe : Int → SignalOutcome)
    (now : Int) (agent_id : String) (info : AgentHealthInfo) : EntryCheck :=
  let new_health := evaluate_agent_health m.max_error_count probe info now
  let info1 :=
    if info.health ≠ new_health then { info with health := new_health } else info
  let hEvents :=
    if info.health ≠ new_health then
      List.replicate m.health_callbacks (agent_id, new_health)
    else []
  if info1.is_running && decide (info1.runtime_seconds now > m.timeout_threshold) then
    { info := applyStatusUpdate info1 .timeout (some "Agent timed out") now
      healthEvents := hEvents
      statusEvents :=
        if info1.status ≠ .timeout then
          List.replicate m.status_callbacks (agent_id, .timeout)
        else [] }
  else
    { info := info1, healthEvents := hEvents, statusEvents := [] }

/-- Result of one poller tick (`_check_agent_health`). -/
structure TickResult where
  monitor : AgentHealthMonitor
  healthEvents : List (String × HealthStatus)
  statusEvents : List (String × AgentStatus)
deriving DecidableEq, Repr

/-- `_check_agent_health()`: one tick of the background poller, iterating the
loop body `check_agent_entry` over every registered agent in order. -/
def check_agent_health (m : AgentHealthMonitor) (probe : Int → SignalOutcome)
    (now : Int) : TickResult :=
  let checked := m.agents.map (fun e => (e.1, check_agent_entry m probe now e.1 e.2))
  { monitor := { m with agents := checked.map (fun e => (e.1, e.2.info)) }
    healthEvents := checked.foldr (fun e acc => e.2.healthEvents ++ acc) []
    statusEvents := checked.foldr (fun e acc => e.2.statusEvents ++ acc) [] }

/-- Abstract actions for the lock/dispatch order analysis: acquiring and
releasing the registry's reentrant lock, writing a record, and invoking one
observer callback with its value snapshot. -/
inductive TraceStep
  | acquire
  | release
  | writeRecord (agent_id : String)
  | notifyStatus (agent_id : String) (status : AgentStatus)
  | notifyHealth (agent_id : String) (health : HealthStatus)
deriving DecidableEq, Repr

/-- The action trace of `update_agent_status`, read off the source order: the
`with self._lock:` block encloses the whole body, including the callback
loop, so the notifications happen strictly between acquire and release. -/
def update_agent_status_trace (m : AgentHealthMonitor) (agent_id : String)
    (status : AgentStatus) : List TraceStep :=
  [.acquire] ++
    (match lookupAgent m.agents agent_id with
     | none => []
     | some info =>
         [.writeRecord agent_id] ++
           (if info.status ≠ status then
             List.replicate m.status_callbacks (.notifyStatus agent_id status)
           else [])) ++
    [.release]

/-- The action trace of one loop iteration of `_check_agent_health`: the
health write and health notifications happen under the outer lock; the
timeout path re-enters `update_agent_status`, whose `with self._lock:`
re-acquires the reentrant lock a second time around the status
notifications. -/
def check_entry_trace (m : AgentHealthMonitor) (probe : Int → SignalOutcome)
    (now : Int) (agent_id : String) (info : AgentHealthInfo) : List TraceStep :=
  let new_health := evaluate_agent_health m.max_error_count probe info now
  let info1 :=
    if info.health ≠ new_health then { info with health := new_health } else info
  (if info.health ≠ new_health then
     [.writeRecord agent_id] ++
       List.replicate m.health_callbacks (.notifyHealth agent_id new_health)
   else []) ++
  (if info1.is_running && decide (info1.runtime_seconds now > m.timeout_threshold) then
     [.acquire, .writeRecord agent_id] ++
       (if info1.status ≠ AgentStatus.timeout then
         List.replicate m.status_callbacks (.notifyStatus agent_id .timeout)
       else []) ++ [.release]
   else [])

/-- The action trace of one full `_check_agent_health` tick: the outer
`with self._lock:` spans the whole loop. -/
def check_agent_health_trace (m : AgentHealthMonitor) (probe : Int → SignalOutcome)
    (now : Int) : List TraceStep :=
  [TraceStep.acquire] ++
    m.agents.foldr (fun e acc => check_entry_trace m probe now e.1 e.2 ++ acc) [] ++
    [TraceStep.release]

/-- The reentrant-lock hold depth at which each notification in a trace is
dispatched, scanning left to right from hold depth `d`.  A dispatch "outside
the lock" would appear here as depth `0`. -/
def notifyDepths : List TraceStep → Nat → List Nat
  | [], _ => []
  | .acquire :: rest, d => notifyDepths rest (d + 1)
  | .release :: rest, d => notifyDepths rest (d - 1)
  | .writeRecord _ :: rest, d => notifyDepths rest d
  | .notifyStatus _ _ :: rest, d => d :: notifyDepths rest d
  | .notifyHealth _ _ :: rest, d => d :: notifyDepths rest d

/-- The lock hold depth after executing a trace, starting from depth `d`. -/
def depthAfter : List TraceStep → Nat → Nat
  | [], d => d
  | .acquire :: rest, d => depthAfter rest (d + 1)
  | .release :: rest, d => depthAfter rest (d - 1)
  | .writeRecord _ :: rest, d => depthAfter rest d
  | .notifyStatus _ _ :: rest, d => depthAfter rest d
  | .notifyHealth _ _ :: rest, d => depthAfter rest d

/-! ### Sample states used as concrete inputs -/

/-- A record whose caller-asserted status is `FAILED` and whose metrics report
no errors. -/
def sampleFailed : AgentHealthInfo :=
  { agent_id := "a1", status := .failed, health := .unknown, start_time := 0 }

/-- A running record with a pid whose last heartbeat is 100 seconds old at
`now = 100`. -/
def sampleStale : AgentHealthInfo :=
  { agent_id := "a1"
    status := .running
    health := .unknown
    start_time := 0
    last_heartbeat := some 0
    process_id := some 1234 }

/-- A running record with no pid and no heartbeat. -/
def sampleNoPid : AgentHealthInfo :=
  { agent_id := "a1"
    status := .running
    health := .unknown
    start_time := 0 }

/-- A registered running agent without a pid. -/
def sampleNoPidMonitor : AgentHealthMonitor :=
  { agents := [("a1", sampleNoPid)] }

/-- A monitor with no registered agents. -/
def emptyMonitor : AgentHealthMonitor := {}

/-- A freshly registered record (status `INITIALIZING`). -/
def sampleFresh : AgentHealthInfo :=
  { agent_id := "a1"
    status := .initializing
    health := .unknown
    start_time := 0 }

/-- A monitor with one registered agent and one observer of each kind. -/
def sampleCbMonitor : AgentHealthMonitor :=
  { agents := [("a1", sampleFresh)]
    status_callbacks := 1
    health_callbacks := 1 }

/-! ### Helper lemmas -/

theorem lookup_dictSet_self (l : List (String × AgentHealthInfo)) (id : String)
    (v : AgentHealthInfo) : lookupAgent (dictSet l id v) id = some v := by
  induction l with
  | nil => simp [dictSet, lookupAgent]
  | cons e rest ih =>
      by_cases h : e.1 = id
      · simp [dictSet, lookupAgent, h]
      · simp [dictSet, lookupAgent, h, ih]

theorem lookup_map_entry (l : List (String × AgentHealthInfo))
    (g : String → AgentHealthInfo → AgentHealthInfo) (id : String) :
    lookupAgent (l.map (fun e => (e.1, g e.1 e.2))) id =
      (lookupAgent l id).map (g id) := by
  induction l with
  | nil => simp [lookupAgent]
  | cons e rest ih =>
      by_cases h : e.1 = id
      · subst h; simp [lookupAgent]
      · simp [lookupAgent, h, ih]

theorem applyStatusUpdate_status (info : AgentHealthInfo) (s : AgentStatus)
    (em : Option String) (t : Int) : (applyStatusUpdate info s em t).status = s := by
  unfold applyStatusUpdate
  split <;> rfl

theorem applyStatusUpdate_error_message (info : AgentHealthInfo) (s : AgentStatus)
    (em : Option String) (t : Int) (h : strTruthy em = true) :
    (applyStatusUpdate info s em t).error_message = em := by
  unfold applyStatusUpdate
  rw [if_pos h]

/-! ### Claim theorems -/

/-- C3: for every record with status in {failed, cancelled, timeout} and every
threshold configuration, the state evaluator returns `unhealthy`, regardless
of error count, heartbeat recency, or process existence — precedence rule 1
wins; in particular a `failed` record with `error_count = 0` evaluates to
`unhealthy`. -/
theorem evaluator_terminal_status_unhealthy (max_error_count : Int)
    (probe : Int → SignalOutcome) (info : AgentHealthInfo) (now : Int)
    (h : info.status = .failed ∨ info.status = .cancelled ∨ info.status = .timeout) :
    evaluate_agent_health max_error_count probe info now = .unhealthy := by
  unfold evaluate_agent_health
  rw [if_pos h]

/-- Witness for `evaluator_terminal_status_unhealthy`: a `failed` record with
zero errors evaluates to `unhealthy`. -/
theorem evaluator_terminal_status_unhealthy_witness :
    (sampleFailed.status = .failed ∨ sampleFailed.status = .cancelled ∨
      sampleFailed.status = .timeout) ∧
    sampleFailed.metrics.error_count = 0 ∧
    evaluate_agent_health 5 (fun _ => .ok) sampleFailed 100 = .unhealthy :=
  ⟨Or.inl rfl, rfl,
    evaluator_terminal_status_unhealthy 5 (fun _ => .ok) sampleFailed 100 (Or.inl rfl)⟩

/-- C10: for every record and every threshold configuration, the state
evaluator returns one of `healthy`, `degraded`, `unhealthy` — never the
`unknown` verdict. -/
theorem evaluator_never_unknown (max_error_count : Int)
    (probe : Int → SignalOutcome) (info : AgentHealthInfo) (now : Int) :
    evaluate_agent_health max_error_count probe info now ≠ .unknown := by
  unfold evaluate_agent_health
  (repeat' split) <;> simp

/-- C4: a record with a running-like status, error count below the threshold,
a (truthy) pid, and a heartbeat that is absent or at least 30 seconds old
evaluates to `degraded` — not `unhealthy` — and the process-existence oracle
is never consulted (the result holds for an arbitrary `probe`). -/
theorem evaluator_stale_heartbeat_degraded (max_error_count : Int)
    (probe : Int → SignalOutcome) (info : AgentHealthInfo) (now : Int)
    (hrun : info.is_running = true)
    (herr : info.metrics.error_count < max_error_count)
    (_hpid : pidTruthy info.process_id = true)
    (hhb : info.last_heartbeat = none ∨
      ∃ hb, info.last_heartbeat = some hb ∧ 30 ≤ now - hb) :
    evaluate_agent_health max_error_count probe info now = .degraded := by
  have hstat := hrun
  simp only [AgentHealthInfo.is_running, decide_eq_true_eq] at hstat
  have hns : ¬ (info.status = .failed ∨ info.status = .cancelled ∨
      info.status = .timeout) := by
    rcases hstat with h | h | h <;> simp [h]
  have hnc : ¬ info.status = .completed := by
    rcases hstat with h | h | h <;> simp [h]
  have hge : ¬ (info.metrics.error_count ≥ max_error_count) := not_le.mpr herr
  have hresp : info.is_responsive now = false := by
    rcases hhb with h | ⟨hb, hbeq, hle⟩
    · simp [AgentHealthInfo.is_responsive, h]
    · simp only [AgentHealthInfo.is_responsive, hbeq, decide_eq_false_iff_not, not_lt]
      omega
  unfold evaluate_agent_health
  rw [if_neg hns, if_neg hnc, if_neg hge]
  simp [hrun, hresp]

/-- Witness for `evaluator_stale_heartbeat_degraded`: a running record with a
pid and a 100-second-old heartbeat evaluates to `degraded` even when the
process-existence oracle claims the process is gone. -/
theorem evaluator_stale_heartbeat_degraded_witness :
    sampleStale.is_running = true ∧
    sampleStale.metrics.error_count < 5 ∧
    pidTruthy sampleStale.process_id = true ∧
    (∃ hb, sampleStale.last_heartbeat = some hb ∧ 30 ≤ (100 : Int) - hb) ∧
    evaluate_agent_health 5 (fun _ => .noSuchProcess) sampleStale 100 = .degraded :=
  ⟨by decide, by decide, by decide, ⟨0, by decide, by decide⟩,
    evaluator_stale_heartbeat_degraded 5 (fun _ => .noSuchProcess) sampleStale 100
      (by decide) (by decide) (by decide) (Or.inr ⟨0, by decide, by decide⟩)⟩

/-- Counterexample to C1: on a registered agent whose record has no
`process_id`, `terminate_agent` returns `True` but does **not** update the
status to `cancelled` — the `update_agent_status(CANCELLED)` call sits inside
the `if agent_info.process_id:` block, so the no-pid path skips it and falls
through to the bare `return True`. -/
theorem terminate_no_pid_counterexample :
    ¬ ((terminate_agent sampleNoPidMonitor (fun _ _ => .ok) "a1" false 50).returned
        = true ∧
      (lookupAgent (terminate_agent sampleNoPidMonitor (fun _ _ => .ok) "a1" false
          50).monitor.agents "a1").map AgentHealthInfo.status =
        some AgentStatus.cancelled) := by
  decide

/-- C1 (amended): for every registered agent whose record has no (truthy)
`process_id`, `terminate_agent(id, force)` returns `True` but performs no
mutation at all: the status is left unchanged (not set to `cancelled`) and no
notification is dispatched. -/
theorem terminate_no_pid_returns_true_no_update (m : AgentHealthMonitor)
    (kill : Int → TermSignal → SignalOutcome) (agent_id : String) (force : Bool)
    (now : Int) (info : AgentHealthInfo)
    (hfound : lookupAgent m.agents agent_id = some info)
    (hpid : pidTruthy info.process_id = false) :
    terminate_agent m kill agent_id force now =
      { monitor := m, returned := true, statusEvents := [] } := by
  unfold terminate_agent
  rw [hfound]
  simp [hpid]

/-- Witness for `terminate_no_pid_returns_true_no_update`. -/
theorem terminate_no_pid_returns_true_no_update_witness :
    lookupAgent sampleNoPidMonitor.agents "a1" = some sampleNoPid ∧
    pidTruthy sampleNoPid.process_id = false ∧
    terminate_agent sampleNoPidMonitor (fun _ _ => .ok) "a1" false 50 =
      { monitor := sampleNoPidMonitor, returned := true, statusEvents := [] } :=
  ⟨by decide, by decide,
    terminate_no_pid_returns_true_no_update sampleNoPidMonitor (fun _ _ => .ok)
      "a1" false 50 sampleNoPid (by decide) (by decide)⟩

/-- Counterexample to C2: on an empty registry `get_summary_stats` returns
`{"total": 0}` only — the mean-runtime key (like the count, error and
percentage keys) is absent, not present with value zero. -/
theorem summary_empty_counterexample :
    (get_summary_stats emptyMonitor 0).total = 0 ∧
    (get_summary_stats emptyMonitor 0).average_runtime ≠ some 0 ∧
    (get_summary_stats emptyMonitor 0).status_counts = none ∧
    (get_summary_stats emptyMonitor 0).health_counts = none ∧
    (get_summary_stats emptyMonitor 0).total_errors = none ∧
    (get_summary_stats emptyMonitor 0).healthy_percentage = none := by
  decide

/-- C2 (amended): when the registry is empty, `get_summary_stats` returns the
degenerate summary `{"total": 0}`: total is `0` and the per-status counts,
per-health counts, mean runtime, total error count and healthy percentage are
omitted entirely; the computation performs no division (in particular none by
zero), since the early return precedes every division. -/
theorem summary_empty_total_only (m : AgentHealthMonitor) (now : Int)
    (h : m.agents = []) :
    get_summary_stats m now =
      { total := 0
        status_counts := none
        health_counts := none
        average_runtime := none
        total_errors := none
        healthy_percentage := none } := by
  unfold get_summary_stats
  simp [h]

/-- Witness for `summary_empty_total_only`. -/
theorem summary_empty_total_only_witness :
    emptyMonitor.agents = [] ∧
    get_summary_stats emptyMonitor 0 =
      { total := 0
        status_counts := none
        health_counts := none
        average_runtime := none
        total_errors := none
        healthy_percentage := none } :=
  ⟨rfl, summary_empty_total_only emptyMonitor 0 rfl⟩

/-- C5: for an id that is not registered, `update_agent_status` and
`heartbeat` log one warning each, leave the monitor state completely
unchanged and dispatch nothing; both are total functions, so no exception is
possible. -/
theorem unknown_id_mutators_noop (m : AgentHealthMonitor) (agent_id : String)
    (status : AgentStatus) (error_message : Option String)
    (metrics : Option AgentMetrics) (now : Int)
    (h : lookupAgent m.agents agent_id = none) :
    update_agent_status m agent_id status error_message now =
      { monitor := m
        statusEvents := []
        warnings := ["Agent " ++ agent_id ++ " not registered"] } ∧
    heartbeat m agent_id metrics now =
      { monitor := m
        warnings := ["Heartbeat from unregistered agent " ++ agent_id] } := by
  constructor
  · unfold update_agent_status
    rw [h]
  · unfold heartbeat
    rw [h]

/-- Witness for `unknown_id_mutators_noop`. -/
theorem unknown_id_mutators_noop_witness :
    lookupAgent emptyMonitor.agents "ghost" = none ∧
    update_agent_status emptyMonitor "ghost" .completed (some "boom") 3 =
      { monitor := emptyMonitor
        statusEvents := []
        warnings := ["Agent " ++ "ghost" ++ " not registered"] } ∧
    heartbeat emptyMonitor "ghost" none 3 =
      { monitor := emptyMonitor
        warnings := ["Heartbeat from unregistered agent " ++ "ghost"] } :=
  ⟨rfl,
    (unknown_id_mutators_noop emptyMonitor "ghost" .completed (some "boom") none 3 rfl).1,
    (unknown_id_mutators_noop emptyMonitor "ghost" .completed (some "boom") none 3 rfl).2⟩

/-- C6: `update_agent_status` is idempotent for notification purposes — after
setting a status, setting the very same status again dispatches no
status-change notification, whatever the error messages and times involved. -/
theorem update_status_second_identical_no_notification (m : AgentHealthMonitor)
    (agent_id : String) (status : AgentStatus) (em1 em2 : Option String)
    (t1 t2 : Int) (info : AgentHealthInfo)
    (h : lookupAgent m.agents agent_id = some info) :
    (update_agent_status (update_agent_status m agent_id status em1 t1).monitor
      agent_id status em2 t2).statusEvents = [] := by
  have h1 : lookupAgent (update_agent_status m agent_id status em1 t1).monitor.agents
      agent_id = some (applyStatusUpdate info status em1 t1) := by
    simp only [update_agent_status, h]
    exact lookup_dictSet_self m.agents agent_id (applyStatusUpdate info status em1 t1)
  generalize (update_agent_status m agent_id status em1 t1).monitor = m1 at h1
  simp only [update_agent_status, h1, applyStatusUpdate_status]
  simp

/-- Witness for `update_status_second_identical_no_notification`: with one
registered status observer, repeating `RUNNING` dispatches nothing the second
time. -/
theorem update_status_second_identical_no_notification_witness :
    lookupAgent sampleCbMonitor.agents "a1" = some sampleFresh ∧
    (update_agent_status (update_agent_status sampleCbMonitor "a1" .running none
      5).monitor "a1" .running none 7).statusEvents = [] :=
  ⟨by decide,
    update_status_second_identical_no_notification sampleCbMonitor "a1" .running
      none none 5 7 sampleFresh (by decide)⟩

/-- C8: re-registering an existing agent id replaces the prior record with a
fresh one — status `INITIALIZING`, health `UNKNOWN`, `start_time = now`, no
heartbeat, default metrics (zero errors), no error message — discarding the
prior record entirely, and logs the "already registered" warning. -/
theorem reregister_resets_record (m : AgentHealthMonitor) (agent_id : String)
    (process_id : Option Int) (log_file : Option String)
    (metadata : Option (List (String × String))) (now : Int)
    (old : AgentHealthInfo)
    (h : lookupAgent m.agents agent_id = some old) :
    (register_agent m agent_id process_id log_file metadata now).warnings =
      ["Agent " ++ agent_id ++ " already registered, updating"] ∧
    lookupAgent
        (register_agent m agent_id process_id log_file metadata now).monitor.agents
        agent_id = some
      { agent_id := agent_id
        status := .initializing
        health := .unknown
        start_time := now
        last_heartbeat := none
        last_update := none
        process_id := process_id
        log_file := log_file
        error_message := none
        metrics := {}
        metadata := metadata.getD [] } := by
  constructor
  · unfold register_agent
    simp [h]
  · unfold register_agent
    simp only []
    exact lookup_dictSet_self ..

/-- Witness for `reregister_resets_record`: re-registering `a1` over an
existing record resets it. -/
theorem reregister_resets_record_witness :
    lookupAgent sampleCbMonitor.agents "a1" = some sampleFresh ∧
    (register_agent sampleCbMonitor "a1" (some 7) none none 9).warnings =
      ["Agent " ++ "a1" ++ " already registered, updating"] ∧
    lookupAgent (register_agent sampleCbMonitor "a1" (some 7) none none 9).monitor.agents
        "a1" = some
      { agent_id := "a1"
        status := .initializing
        health := .unknown
        start_time := 9
        last_heartbeat := none
        last_update := none
        process_id := some 7
        log_file := none
        error_message := none
        metrics := {}
        metadata := Option.getD none [] } :=
  ⟨by decide,
    (reregister_resets_record sampleCbMonitor "a1" (some 7) none none 9 sampleFresh
      (by decide)).1,
    (reregister_resets_record sampleCbMonitor "a1" (some 7) none none 9 sampleFresh
      (by decide)).2⟩

/-- A running record with a stale heartbeat registered in a monitor whose
timeout threshold is already exceeded at `now = 100`. -/
def sampleTimeoutMonitor : AgentHealthMonitor :=
  { agents := [("a1", sampleStale)]
    timeout_threshold := 10
    status_callbacks := 1
    health_callbacks := 1 }

/-- The registry after a poller tick is the entrywise image of the loop
body. -/
theorem check_agent_health_agents (m : AgentHealthMonitor)
    (probe : Int → SignalOutcome) (now : Int) :
    (check_agent_health m probe now).monitor.agents =
      m.agents.map (fun e => (e.1, (check_agent_entry m probe now e.1 e.2).info)) := by
  simp [check_agent_health, List.map_map, Function.comp]

/-- Looking an agent up after a tick sees that agent's own loop-body
result. -/
theorem lookup_check_agent_health (m : AgentHealthMonitor)
    (probe : Int → SignalOutcome) (now : Int) (agent_id : String) :
    lookupAgent (check_agent_health m probe now).monitor.agents agent_id =
      (lookupAgent m.agents agent_id).map
        (fun info => (check_agent_entry m probe now agent_id info).info) := by
  rw [check_agent_health_agents]
  exact lookup_map_entry m.agents
    (fun id info => (check_agent_entry m probe now id info).info) agent_id

/-- On a running-like record whose runtime exceeds the threshold, the tick
loop body times the agent out with the message "Agent timed out". -/
theorem check_agent_entry_timeout (m : AgentHealthMonitor)
    (probe : Int → SignalOutcome) (now : Int) (agent_id : String)
    (info : AgentHealthInfo) (hrun : info.is_running = true)
    (hto : info.runtime_seconds now > m.timeout_threshold) :
    (check_agent_entry m probe now agent_id info).info.status = .timeout ∧
    (check_agent_entry m probe now agent_id info).info.error_message =
      some "Agent timed out" := by
  have hstat := hrun
  simp only [AgentHealthInfo.is_running, decide_eq_true_eq] at hstat
  have hto2 : m.timeout_threshold < now - info.start_time := hto
  have hst : strTruthy (some "Agent timed out") = true := by decide
  rcases hstat with h | h | h <;>
  · simp only [check_agent_entry]
    split <;>
    · constructor <;>
        simp [applyStatusUpdate, hst, h, hto2,
          AgentHealthInfo.is_running, AgentHealthInfo.runtime_seconds]

/-- When the timeout condition does not hold, the tick loop body leaves the
status untouched (it only ever rewrites `health`). -/
theorem check_agent_entry_status_preserved (m : AgentHealthMonitor)
    (probe : Int → SignalOutcome) (now : Int) (agent_id : String)
    (info : AgentHealthInfo)
    (h : info.is_running = false ∨ ¬ (info.runtime_seconds now > m.timeout_threshold)) :
    (check_agent_entry m probe now agent_id info).info.status = info.status := by
  have hcond : (info.is_running &&
      decide (info.runtime_seconds now > m.timeout_threshold)) = false := by
    rcases h with h1 | h1 <;> simp [h1]
  simp only [check_agent_entry]
  split <;> split <;>
    first
      | rfl
      | (rename_i hc; exact absurd (hc.symm.trans hcond) (by decide))

/-- C7: on a poller tick, every registered agent that is running-like with
runtime exceeding `timeout_threshold` has its status set to `timeout` with
error message "Agent timed out" (the effect of
`update_status(id, TIMEOUT, "Agent timed out")`); and this is the only way a
tick changes any agent's status — every other record keeps its status. -/
theorem poller_timeout_transition (m : AgentHealthMonitor)
    (probe : Int → SignalOutcome) (now : Int) (agent_id : String)
    (info : AgentHealthInfo)
    (hfound : lookupAgent m.agents agent_id = some info) :
    (info.is_running = true → info.runtime_seconds now > m.timeout_threshold →
      ∃ info2, lookupAgent (check_agent_health m probe now).monitor.agents agent_id
          = some info2 ∧ info2.status = .timeout ∧
        info2.error_message = some "Agent timed out") ∧
    (∀ info2,
      lookupAgent (check_agent_health m probe now).monitor.agents agent_id
          = some info2 →
      info2.status = info.status ∨
        (info2.status = .timeout ∧ info.is_running = true ∧
          info.runtime_seconds now > m.timeout_threshold)) := by
  have hl := lookup_check_agent_health m probe now agent_id
  rw [hfound] at hl
  simp only [Option.map_some'] at hl
  constructor
  · intro hrun hto
    exact ⟨_, hl, (check_agent_entry_timeout m probe now agent_id info hrun hto).1,
      (check_agent_entry_timeout m probe now agent_id info hrun hto).2⟩
  · intro info2 h2
    rw [hl] at h2
    injection h2 with h2
    subst h2
    by_cases hrun : info.is_running = true
    · by_cases hto : info.runtime_seconds now > m.timeout_threshold
      · exact Or.inr ⟨(check_agent_entry_timeout m probe now agent_id info hrun hto).1,
          hrun, hto⟩
      · exact Or.inl (check_agent_entry_status_preserved m probe now agent_id info
          (Or.inr hto))
    · exact Or.inl (check_agent_entry_status_preserved m probe now agent_id info
        (Or.inl (by simpa using hrun)))

/-- Witness for `poller_timeout_transition`: a running agent 100 seconds in,
against a 10-second threshold, is timed out by the next tick. -/
theorem poller_timeout_transition_witness :
    lookupAgent sampleTimeoutMonitor.agents "a1" = some sampleStale ∧
    sampleStale.is_running = true ∧
    sampleStale.runtime_seconds 100 > sampleTimeoutMonitor.timeout_threshold ∧
    (∃ info2,
      lookupAgent (check_agent_health sampleTimeoutMonitor (fun _ => .ok)
          100).monitor.agents "a1" = some info2 ∧
      info2.status = .timeout ∧ info2.error_message = some "Agent timed out") :=
  ⟨by decide, by decide, by decide,
    (poller_timeout_transition sampleTimeoutMonitor (fun _ => .ok) 100 "a1"
      sampleStale (by decide)).1 (by decide) (by decide)⟩

/-- Splitting a notification-depth scan across a trace concatenation. -/
theorem notifyDepths_append (l1 l2 : List TraceStep) (d : Nat) :
    notifyDepths (l1 ++ l2) d = notifyDepths l1 d ++ notifyDepths l2 (depthAfter l1 d) := by
  induction l1 generalizing d with
  | nil => simp [notifyDepths, depthAfter]
  | cons s rest ih => cases s <;> simp [notifyDepths, depthAfter, ih]

/-- A run of status notifications is dispatched entirely at the current
depth. -/
theorem notifyDepths_replicate_status (n : Nat) (a : String) (s : AgentStatus)
    (d : Nat) :
    notifyDepths (List.replicate n (TraceStep.notifyStatus a s)) d =
      List.replicate n d := by
  induction n with
  | zero => simp [notifyDepths]
  | succ k ih => simp [List.replicate_succ, notifyDepths, ih]

/-- A run of health notifications is dispatched entirely at the current
depth. -/
theorem notifyDepths_replicate_health (n : Nat) (a : String) (h : HealthStatus)
    (d : Nat) :
    notifyDepths (List.replicate n (TraceStep.notifyHealth a h)) d =
      List.replicate n d := by
  induction n with
  | zero => simp [notifyDepths]
  | succ k ih => simp [List.replicate_succ, notifyDepths, ih]

/-- Notification steps do not change the lock depth. -/
theorem depthAfter_replicate_status (n : Nat) (a : String) (s : AgentStatus)
    (d : Nat) :
    depthAfter (List.replicate n (TraceStep.notifyStatus a s)) d = d := by
  induction n with
  | zero => simp [depthAfter]
  | succ k ih => simp [List.replicate_succ, depthAfter, ih]

/-- Notification steps do not change the lock depth. -/
theorem depthAfter_replicate_health (n : Nat) (a : String) (h : HealthStatus)
    (d : Nat) :
    depthAfter (List.replicate n (TraceStep.notifyHealth a h)) d = d := by
  induction n with
  | zero => simp [depthAfter]
  | succ k ih => simp [List.replicate_succ, depthAfter, ih]

/-- Counterexample to C9: with one registered status observer, updating a
registered agent to a new status dispatches the notification at lock hold
depth 1 — i.e. inside the `with self._lock:` block — not outside the lock as
claimed.  (Observer re-entry is still deadlock-free, but only because the
lock is an `RLock`.) -/
theorem notify_outside_lock_counterexample :
    ¬ (∀ d ∈ notifyDepths (update_agent_status_trace sampleCbMonitor "a1"
        .running) 0, d = 0) := by
  decide

/-- C9 (amended): status-change and health-change notifications pass a value
snapshot (agent id plus the new status/verdict), but they are dispatched
while the Registry's mutual-exclusion lock is still held (at hold depth 1),
not outside it; an observer can re-enter the Registry without deadlock only
because the lock is reentrant. -/
theorem notifications_dispatched_inside_lock
    (m : AgentHealthMonitor) (agent_id : String) (status : AgentStatus)
    (info : AgentHealthInfo)
    (hfound : lookupAgent m.agents agent_id = some info)
    (hchange : info.status ≠ status)
    (m2 : AgentHealthMonitor) (id2 : String) (info2 : AgentHealthInfo)
    (probe : Int → SignalOutcome) (now : Int)
    (hagents : m2.agents = [(id2, info2)])
    (hh : info2.health ≠ evaluate_agent_health m2.max_error_count probe info2 now)
    (hnt : (info2.is_running &&
      decide (info2.runtime_seconds now > m2.timeout_threshold)) = false) :
    notifyDepths (update_agent_status_trace m agent_id status) 0 =
      List.replicate m.status_callbacks 1 ∧
    notifyDepths (check_agent_health_trace m2 probe now) 0 =
      List.replicate m2.health_callbacks 1 ∧
    (∀ step ∈ update_agent_status_trace m agent_id status,
      ∀ a s, step = TraceStep.notifyStatus a s → a = agent_id ∧ s = status) := by
  refine ⟨?_, ?_, ?_⟩
  · simp [update_agent_status_trace, hfound, hchange, notifyDepths,
      notifyDepths_append, notifyDepths_replicate_status,
      depthAfter_replicate_status, depthAfter]
  · have hnt2 : ¬ (info2.is_running = true ∧
        m2.timeout_threshold < info2.runtime_seconds now) := by
      intro hand
      rw [hand.1, decide_eq_true hand.2] at hnt
      exact absurd hnt (by decide)
    simp [check_agent_health_trace, hagents, check_entry_trace, hh, hnt2,
      AgentHealthInfo.is_running, AgentHealthInfo.runtime_seconds,
      notifyDepths, notifyDepths_append, notifyDepths_replicate_health,
      depthAfter_replicate_health, depthAfter]
    simp only [AgentHealthInfo.is_running, AgentHealthInfo.runtime_seconds,
      decide_eq_true_eq] at hnt2
    rw [if_neg hnt2]
    simp [notifyDepths]
  · intro step hstep a s heq
    rw [heq] at hstep
    simp [update_agent_status_trace, hfound, hchange] at hstep
    rcases hstep with ⟨h1, h2, h3⟩
    exact ⟨h2, h3⟩

/-- Witness for `notifications_dispatched_inside_lock`: one observer of each
kind, a status change and a health change, each dispatched once at depth 1. -/
theorem notifications_dispatched_inside_lock_witness :
    lookupAgent sampleCbMonitor.agents "a1" = some sampleFresh ∧
    sampleFresh.status ≠ AgentStatus.running ∧
    notifyDepths (update_agent_status_trace sampleCbMonitor "a1" .running) 0 =
      List.replicate sampleCbMonitor.status_callbacks 1 ∧
    notifyDepths (check_agent_health_trace sampleCbMonitor (fun _ => .ok) 5) 0 =
      List.replicate sampleCbMonitor.health_callbacks 1 :=
  ⟨by decide, by decide,
    (notifications_dispatched_inside_lock sampleCbMonitor "a1" .running sampleFresh
      (by decide) (by decide) sampleCbMonitor "a1" sampleFresh (fun _ => .ok) 5
      rfl (by decide) (by decide)).1,
    (notifications_dispatched_inside_lock sampleCbMonitor "a1" .running sampleFresh
      (by decide) (by decide) sampleCbMonitor "a1" sampleFresh (fun _ => .ok) 5
      rfl (by decide) (by decide)).2.1⟩
